import Mathlib

set_option maxRecDepth 8192

/-!
# Verification of the CipherWhisp backend blob-indirection layer

Shallow embedding of `src/backend/main.py`: the Walrus blob-store client
(`walrus_upload`, `walrus_fetch`), the in-memory form registry and
submission ledger (`forms`, `submissions` dictionaries), and the four
routes `create_form`, `submit`, `list_submissions`, `get_form`.

Python semantics modelled explicitly:
* JSON values as an inductive type; `resp.json()` as an `Option Json`
  carried by the network outcome (a parse failure is `none`).
* Python `k in j` (`pyContains`) and `j[k]` (`pyIndex`) including the
  `TypeError` / `KeyError` cases on non-dict values.
* Python `str.encode("utf-8")` / `bytes.decode("utf-8")` as a strict
  UTF-8 codec over codepoint lists (`pyEncodeUtf8` / `utf8Decode`);
  the decoder rejects exactly what CPython's strict decoder rejects
  (bad start bytes, truncated sequences, overlong forms, surrogates,
  values above 0x10FFFF).
* A raised `HTTPException` or an uncaught Python exception as the error
  side of `Except Err`; mutations of the global dicts before a raise
  persist, so `submit` returns the (possibly updated) state alongside
  the outcome.
* The remote store as an oracle function from the request data to an
  HTTP outcome, quantified over in the theorems.
-/

/-- An error escaping a route handler: either an `HTTPException` raised
on purpose (status code and detail string, as in the source), or an
uncaught Python exception (its class name). -/
inductive Err where
  | httpException (status : Nat) (detail : String)
  | uncaught (exc : String)
deriving DecidableEq

/-- JSON values, as returned by `resp.json()` and stored in the
in-memory dictionaries. Objects keep key order, as Python dicts do. -/
inductive Json where
  | null
  | bool (b : Bool)
  | num (n : Int)
  | str (s : String)
  | arr (xs : List Json)
  | obj (kvs : List (String × Json))

/-- Association-list lookup: Python `d[k]` / `d.get(k)` on a dict whose
pairs are kept in insertion order. -/
def alookup {α : Type} : List (String × α) → String → Option α
  | [], _ => none
  | (k, v) :: rest, key => if k = key then some v else alookup rest key

/-- Python dict assignment `d[k] = v`: replace in place if the key is
present, otherwise append (insertion order preserved). -/
def aupdate {α : Type} : List (String × α) → String → α → List (String × α)
  | [], key, v => [(key, v)]
  | (k, w) :: rest, key, v =>
    if k = key then (key, v) :: rest else (k, w) :: aupdate rest key v

/-- Key list of a dict, in insertion order. -/
def akeys {α : Type} (l : List (String × α)) : List String :=
  l.map Prod.fst

/-- Python `key in j` on a JSON value: key membership for dicts, element
equality for lists (a string only equals a string), substring test for
strings, and `TypeError` for null / bool / number. -/
def pyContains (j : Json) (key : String) : Except Err Bool :=
  match j with
  | .obj kvs => .ok (alookup kvs key).isSome
  | .arr xs => .ok (xs.any (fun x => match x with
      | .str s => s = key
      | _ => false))
  | .str s => .ok (decide (List.IsInfix key.toList s.toList))
  | _ => .error (.uncaught "TypeError")

/-- Python `j[key]` on a JSON value: dict lookup (`KeyError` when the
key is absent), `TypeError` when `j` is not a dict (string indices and
list indices must be integers; null / bool / number are not
subscriptable). -/
def pyIndex (j : Json) (key : String) : Except Err Json :=
  match j with
  | .obj kvs =>
    match alookup kvs key with
    | some v => .ok v
    | none => .error (.uncaught "KeyError")
  | _ => .error (.uncaught "TypeError")

/-- A Unicode scalar value: what `str.encode("utf-8")` accepts
(surrogates raise `UnicodeEncodeError`). -/
def isScalar (c : Nat) : Prop :=
  c < 0x110000 ∧ ¬(0xD800 ≤ c ∧ c < 0xE000)

instance (c : Nat) : Decidable (isScalar c) := by
  unfold isScalar; infer_instance

/-- UTF-8 encoding of one scalar value. -/
def encodeChar (c : Nat) : List Nat :=
  if c < 0x80 then [c]
  else if c < 0x800 then [0xC0 + c / 64, 0x80 + c % 64]
  else if c < 0x10000 then
    [0xE0 + c / 4096, 0x80 + c / 64 % 64, 0x80 + c % 64]
  else
    [0xF0 + c / 262144, 0x80 + c / 4096 % 64, 0x80 + c / 64 % 64,
     0x80 + c % 64]

/-- Python `s.encode("utf-8")`: a string is a sequence of codepoints;
a lone surrogate raises `UnicodeEncodeError`. -/
def pyEncodeUtf8 : List Nat → Except Err (List Nat)
  | [] => .ok []
  | c :: cs =>
    if isScalar c then
      match pyEncodeUtf8 cs with
      | .ok bs => .ok (encodeChar c ++ bs)
      | .error e => .error e
    else .error (.uncaught "UnicodeEncodeError")

/-- Continuation of a two-byte UTF-8 sequence with start byte `b`:
one continuation byte in range, no overlong forms (those are excluded
by the start-byte range check in `utf8DecodeStep`). -/
def cont2 (b : Nat) : List Nat → Option (Nat × List Nat)
  | b1 :: rest2 =>
    if 0x80 ≤ b1 ∧ b1 < 0xC0 then
      some ((b - 0xC0) * 64 + (b1 - 0x80), rest2)
    else none
  | [] => none

/-- Continuation of a three-byte UTF-8 sequence with start byte `b`:
two continuation bytes in range, rejecting overlong forms
(`E0 80..9F`) and surrogates (`ED A0..BF`). -/
def cont3 (b : Nat) : List Nat → Option (Nat × List Nat)
  | b1 :: b2 :: rest3 =>
    if (0x80 ≤ b1 ∧ b1 < 0xC0) ∧ (0x80 ≤ b2 ∧ b2 < 0xC0) ∧
       ¬(b = 0xE0 ∧ b1 < 0xA0) ∧ ¬(b = 0xED ∧ 0xA0 ≤ b1) then
      some ((b - 0xE0) * 4096 + (b1 - 0x80) * 64 + (b2 - 0x80), rest3)
    else none
  | _ => none

/-- Continuation of a four-byte UTF-8 sequence with start byte `b`:
three continuation bytes in range, rejecting overlong forms
(`F0 80..8F`) and values above 0x10FFFF (`F4 90..BF`). -/
def cont4 (b : Nat) : List Nat → Option (Nat × List Nat)
  | b1 :: b2 :: b3 :: rest4 =>
    if (0x80 ≤ b1 ∧ b1 < 0xC0) ∧ (0x80 ≤ b2 ∧ b2 < 0xC0) ∧
       (0x80 ≤ b3 ∧ b3 < 0xC0) ∧
       ¬(b = 0xF0 ∧ b1 < 0x90) ∧ ¬(b = 0xF4 ∧ 0x90 ≤ b1) then
      some ((b - 0xF0) * 262144 + (b1 - 0x80) * 4096 +
            (b2 - 0x80) * 64 + (b3 - 0x80), rest4)
    else none
  | _ => none

/-- Decode one scalar value from a first byte and the remaining bytes:
ASCII, or a 2/3/4-byte sequence by start-byte class; `C0`, `C1` and
`F5..FF` are never valid start bytes, and a continuation byte
(`80..BF`) cannot start a sequence. -/
def utf8DecodeStep (b : Nat) (rest : List Nat) :
    Option (Nat × List Nat) :=
  if b < 0x80 then some (b, rest)
  else if b < 0xC2 then none
  else if b < 0xE0 then cont2 b rest
  else if b < 0xF0 then cont3 b rest
  else if b < 0xF5 then cont4 b rest
  else none

/-- Scalar-by-scalar decoding loop, structurally recursive on a fuel
bound; `utf8Decode` runs it with fuel equal to the byte count, which a
step never increases, so the fuel never runs out. -/
def utf8DecodeFuel : Nat → List Nat → Option (List Nat)
  | _, [] => some []
  | 0, _ :: _ => none
  | fuel + 1, b :: rest =>
    match utf8DecodeStep b rest with
    | none => none
    | some (c, rest2) => (utf8DecodeFuel fuel rest2).map (c :: ·)

/-- Strict UTF-8 decoding of a byte sequence to a codepoint sequence,
as CPython's `bytes.decode("utf-8")` (strict errors): rejects invalid
start bytes, truncated or invalid continuation bytes, overlong
encodings, surrogates and values above 0x10FFFF. `none` models a raised
`UnicodeDecodeError`. -/
def utf8Decode (bs : List Nat) : Option (List Nat) :=
  utf8DecodeFuel bs.length bs

/-- Outcome of `requests.put(url, data=blob_bytes, timeout=30)` followed
by `resp.json()`: a transport failure (`requests.RequestException`), or
a response with a status code and the result of JSON-parsing its body
(`none` models a `ValueError` from `resp.json()`). -/
inductive UploadOutcome where
  | netErr
  | resp (status : Nat) (jsonBody : Option Json)

/-- Outcome of `requests.get(url, timeout=30)`: a transport failure or
a response with a status code and raw body bytes. -/
inductive FetchOutcome where
  | netErr
  | resp (status : Nat) (body : List Nat)

/-- Lines 55-72 of `main.py`: classify the HTTP response of an upload
and extract the blob id. Mirrors, in order: the non-200 check, the
`resp.json()` try/except, the `"newlyCreated" in j` probe and nested
indexing, the `"alreadyCertified" in j` probe and indexing, and the
final `missing blobId` raise. -/
def handle_upload_response (outcome : UploadOutcome) : Except Err Json :=
  match outcome with
  | .netErr => .error (.httpException 500 "walrus upload network error")
  | .resp status jsonBody =>
    if status ≠ 200 then .error (.httpException 500 "walrus upload failed")
    else
      match jsonBody with
      | none => .error (.httpException 500 "walrus upload bad response")
      | some j =>
        match pyContains j "newlyCreated" with
        | .error e => .error e
        | .ok true =>
          match pyIndex j "newlyCreated" with
          | .error e => .error e
          | .ok nc =>
            match pyIndex nc "blobObject" with
            | .error e => .error e
            | .ok bo => pyIndex bo "blobId"
        | .ok false =>
          match pyContains j "alreadyCertified" with
          | .error e => .error e
          | .ok true =>
            match pyIndex j "alreadyCertified" with
            | .error e => .error e
            | .ok ac => pyIndex ac "blobId"
          | .ok false =>
            .error (.httpException 500 "walrus upload missing blobId")

/-- `walrus_upload` (lines 41-72): UTF-8-encode the payload string,
send it to the publisher (the network is the oracle `net`, a function
of the request body bytes), then classify the response. -/
def walrus_upload (encrypted_str : List Nat)
    (net : List Nat → UploadOutcome) : Except Err Json :=
  match pyEncodeUtf8 encrypted_str with
  | .error e => .error e
  | .ok blob_bytes => handle_upload_response (net blob_bytes)

/-- `walrus_fetch` (lines 76-94): get the blob from the aggregator (the
network is the oracle `net`, a function of the blob id the URL embeds)
and decode the body as UTF-8. A decode failure is the uncaught
`UnicodeDecodeError` of `resp.content.decode("utf-8")`, which has no
handler in the source. -/
def walrus_fetch (blob_id : Json) (net : Json → FetchOutcome) :
    Except Err (List Nat) :=
  match net blob_id with
  | .netErr => .error (.httpException 500 "walrus fetch network error")
  | .resp status body =>
    if status ≠ 200 then .error (.httpException 500 "walrus fetch failed")
    else
      match utf8Decode body with
      | some s => .ok s
      | none => .error (.uncaught "UnicodeDecodeError")

/-- A form registry record: `{"publicKey": ..., "schema": ...}`. -/
structure FormData where
  publicKey : String
  schema : Json

/-- The process-global mutable state: the `forms` and `submissions`
dictionaries (line 19-20). A ledger entry is the dict
`{"blobId": blob_id}` the source appends, kept as a `Json` value. -/
structure St where
  forms : List (String × FormData)
  submissions : List (String × List Json)

/-- Response of `create_form`. -/
structure CreateFormResponse where
  formId : String
  adminLink : String
  submitLink : String
deriving DecidableEq

/-- `create_form` (lines 104-119). The fresh `secrets.token_hex(16)`
identifier is a parameter `form_id` (the generator is outside the
model); both dicts are assigned and the three links returned. -/
def create_form (form_id : String) (publicKey : String) (schema : Json)
    (st : St) : St × CreateFormResponse :=
  ({ forms := aupdate st.forms form_id ⟨publicKey, schema⟩,
     submissions := aupdate st.submissions form_id [] },
   ⟨form_id, "/admin/" ++ form_id, "/f/" ++ form_id⟩)

/-- `submit` (lines 122-133): 404 when the form id is not in `forms`;
otherwise upload, then append `{"blobId": blob_id}` to
`submissions[formId]` (a `KeyError` when that key is missing — the
registry/ledger key-set invariant rules this out on reachable states)
and return `{"status": "stored", "blobId": blob_id}`. The state is
returned alongside the outcome: a raise before the append leaves the
dictionaries untouched. -/
def submit (net : List Nat → UploadOutcome) (formId : String)
    (encrypted : List Nat) (st : St) : St × Except Err Json :=
  if (alookup st.forms formId).isNone then
    (st, .error (.httpException 404 "form not found"))
  else
    match walrus_upload encrypted net with
    | .error e => (st, .error e)
    | .ok blob_id =>
      match alookup st.submissions formId with
      | none => (st, .error (.uncaught "KeyError"))
      | some entries =>
        ({ st with
            submissions := aupdate st.submissions formId
              (entries ++ [Json.obj [("blobId", blob_id)]]) },
         .ok (Json.obj [("status", Json.str "stored"),
                        ("blobId", blob_id)]))

/-- One result row of `list_submissions`:
`{"blobId": blob_id, "encrypted": encrypted}`. -/
structure SubEntry where
  blobId : Json
  encrypted : List Nat

/-- The loop of `list_submissions` (lines 141-145): for each stored
item, read `item["blobId"]`, fetch it, and accumulate; the first raise
aborts the whole listing. -/
def fetch_entries (net : Json → FetchOutcome) :
    List Json → Except Err (List SubEntry)
  | [] => .ok []
  | item :: rest =>
    match pyIndex item "blobId" with
    | .error e => .error e
    | .ok blob_id =>
      match walrus_fetch blob_id net with
      | .error e => .error e
      | .ok enc =>
        match fetch_entries net rest with
        | .error e => .error e
        | .ok tail => .ok (⟨blob_id, enc⟩ :: tail)

/-- `list_submissions` (lines 136-147): 404 when the form id is not in
`submissions`; otherwise re-hydrate every ledger entry in order. Reads
no other state and mutates nothing. -/
def list_submissions (net : Json → FetchOutcome) (formId : String)
    (st : St) : Except Err (List SubEntry) :=
  match alookup st.submissions formId with
  | none => .error (.httpException 404 "form not found")
  | some items => fetch_entries net items

/-- `get_form` (lines 150-155): 404 when the form id is not in `forms`,
otherwise the stored record, verbatim. -/
def get_form (formId : String) (st : St) : Except Err FormData :=
  match alookup st.forms formId with
  | none => .error (.httpException 404 "form not found")
  | some f => .ok f

/-- The ideal remote store of the round-trip claims: every upload is
answered 200 with a `newlyCreated` body carrying the given fresh blob
id. -/
def idealUploadNet (fresh : String) : List Nat → UploadOutcome :=
  fun _ => .resp 200 (some (Json.obj
    [("newlyCreated", Json.obj
      [("blobObject", Json.obj [("blobId", Json.str fresh)])])]))

/-- The ideal aggregator of the round-trip claims: fetching a blob id
returns, with status 200, exactly the bytes recorded for it at upload
time; unknown ids get a 404. -/
def idealFetchNet (store : List (String × List Nat)) :
    Json → FetchOutcome :=
  fun j =>
    match j with
    | .str b =>
      match alookup store b with
      | some bytes => .resp 200 bytes
      | none => .resp 404 []
    | _ => .resp 404 []

theorem alookup_aupdate_self {α : Type} (l : List (String × α))
    (k : String) (v : α) : alookup (aupdate l k v) k = some v := by
  induction l with
  | nil => simp [aupdate, alookup]
  | cons hd tl ih =>
    obtain ⟨k1, w⟩ := hd
    by_cases hk : k1 = k
    · simp [aupdate, hk, alookup]
    · simp [aupdate, hk, alookup, ih]

theorem alookup_aupdate_ne {α : Type} (l : List (String × α))
    (k k' : String) (v : α) (h : k' ≠ k) :
    alookup (aupdate l k v) k' = alookup l k' := by
  have hne : ¬(k = k') := fun hh => h hh.symm
  induction l with
  | nil => simp [aupdate, alookup, hne]
  | cons hd tl ih =>
    obtain ⟨k1, w⟩ := hd
    by_cases hk : k1 = k
    · subst hk
      simp [aupdate, alookup, hne]
    · by_cases hk' : k1 = k'
      · simp [aupdate, alookup, hk, hk', h]
      · simp [aupdate, alookup, hk, hk', ih]

theorem akeys_aupdate {α : Type} (l : List (String × α)) (k : String)
    (v : α) :
    akeys (aupdate l k v) =
      if (alookup l k).isSome then akeys l else akeys l ++ [k] := by
  induction l with
  | nil => simp [aupdate, alookup, akeys]
  | cons hd tl ih =>
    obtain ⟨k1, w⟩ := hd
    by_cases hk : k1 = k
    · subst hk
      simp [aupdate, alookup, akeys]
    · by_cases hs : (alookup tl k).isSome
      · simp [aupdate, alookup, akeys, hk, hs] at ih ⊢
        exact ih
      · simp [aupdate, alookup, akeys, hk, hs] at ih ⊢
        exact ih

theorem akeys_cons {α : Type} (p : String × α) (l : List (String × α)) :
    akeys (p :: l) = p.1 :: akeys l := rfl

theorem alookup_isSome_iff_mem_akeys {α : Type} (l : List (String × α))
    (k : String) : (alookup l k).isSome ↔ k ∈ akeys l := by
  induction l with
  | nil => simp [alookup, akeys]
  | cons hd tl ih =>
    obtain ⟨k1, w⟩ := hd
    by_cases hk : k1 = k
    · subst hk
      simp [alookup, akeys_cons]
    · simp only [alookup, if_neg hk, akeys_cons]
      rw [ih]
      simp only [List.mem_cons]
      constructor
      · exact fun hh => Or.inr hh
      · rintro (hh | hh)
        · exact absurd hh.symm hk
        · exact hh

/-- Sanity checks that the decoder matches CPython's strict decoder on
the interesting classes: a 2-byte and a 4-byte character, an invalid
byte, an overlong form, an encoded surrogate and a value above
0x10FFFF. -/
theorem utf8_codec_sanity :
    utf8Decode [0x48, 0xC3, 0xA9] = some [0x48, 0xE9] ∧
    utf8Decode [0xFF] = none ∧
    utf8Decode [0xC0, 0xAF] = none ∧
    utf8Decode [0xED, 0xA0, 0x80] = none ∧
    utf8Decode [0xF4, 0x90, 0x80, 0x80] = none ∧
    utf8Decode [0xF0, 0x9F, 0x98, 0x80] = some [0x1F600] ∧
    pyEncodeUtf8 [0x1F600] = .ok [0xF0, 0x9F, 0x98, 0x80] :=
  ⟨rfl, rfl, rfl, rfl, rfl, rfl, rfl⟩

theorem cont2_length (b : Nat) (rest : List Nat) (c : Nat)
    (rest2 : List Nat) (h : cont2 b rest = some (c, rest2)) :
    rest2.length ≤ rest.length := by
  cases rest with
  | nil =>
    rw [cont2] at h
    exact Option.noConfusion h
  | cons b1 r =>
    rw [cont2] at h
    by_cases hc : 0x80 ≤ b1 ∧ b1 < 0xC0
    · rw [if_pos hc] at h
      cases h
      simp
    · rw [if_neg hc] at h
      exact Option.noConfusion h

theorem cont3_length (b : Nat) (rest : List Nat) (c : Nat)
    (rest2 : List Nat) (h : cont3 b rest = some (c, rest2)) :
    rest2.length ≤ rest.length := by
  cases rest with
  | nil =>
    rw [cont3] at h
    · exact Option.noConfusion h
    · intro a a2 a3 hh
      exact List.noConfusion hh
  | cons b1 r1 =>
    cases r1 with
    | nil =>
      rw [cont3] at h
      · exact Option.noConfusion h
      · intro a a2 a3 hh
        exact List.noConfusion (List.cons.inj hh).2
    | cons b2 r =>
      rw [cont3] at h
      by_cases hc : (0x80 ≤ b1 ∧ b1 < 0xC0) ∧ (0x80 ≤ b2 ∧ b2 < 0xC0) ∧
          ¬(b = 0xE0 ∧ b1 < 0xA0) ∧ ¬(b = 0xED ∧ 0xA0 ≤ b1)
      · rw [if_pos hc] at h
        cases h
        simp only [List.length_cons]
        omega
      · rw [if_neg hc] at h
        exact Option.noConfusion h

theorem cont4_length (b : Nat) (rest : List Nat) (c : Nat)
    (rest2 : List Nat) (h : cont4 b rest = some (c, rest2)) :
    rest2.length ≤ rest.length := by
  cases rest with
  | nil =>
    rw [cont4] at h
    · exact Option.noConfusion h
    · intro a a2 a3 a4 hh
      exact List.noConfusion hh
  | cons b1 r1 =>
    cases r1 with
    | nil =>
      rw [cont4] at h
      · exact Option.noConfusion h
      · intro a a2 a3 a4 hh
        exact List.noConfusion (List.cons.inj hh).2
    | cons b2 r2 =>
      cases r2 with
      | nil =>
        rw [cont4] at h
        · exact Option.noConfusion h
        · intro a a2 a3 a4 hh
          exact List.noConfusion (List.cons.inj (List.cons.inj hh).2).2
      | cons b3 r =>
        rw [cont4] at h
        by_cases hc : (0x80 ≤ b1 ∧ b1 < 0xC0) ∧ (0x80 ≤ b2 ∧ b2 < 0xC0) ∧
            (0x80 ≤ b3 ∧ b3 < 0xC0) ∧
            ¬(b = 0xF0 ∧ b1 < 0x90) ∧ ¬(b = 0xF4 ∧ 0x90 ≤ b1)
        · rw [if_pos hc] at h
          cases h
          simp only [List.length_cons]
          omega
        · rw [if_neg hc] at h
          exact Option.noConfusion h

theorem utf8DecodeStep_length (b : Nat) (rest : List Nat) (c : Nat)
    (rest2 : List Nat) (h : utf8DecodeStep b rest = some (c, rest2)) :
    rest2.length ≤ rest.length := by
  rw [utf8DecodeStep] at h
  split_ifs at h
  · cases h
    exact Nat.le_refl _
  · exact cont2_length b rest c rest2 h
  · exact cont3_length b rest c rest2 h
  · exact cont4_length b rest c rest2 h

theorem utf8DecodeFuel_congr : ∀ (f1 f2 : Nat) (bs : List Nat),
    bs.length ≤ f1 → bs.length ≤ f2 →
    utf8DecodeFuel f1 bs = utf8DecodeFuel f2 bs := by
  intro f1
  induction f1 with
  | zero =>
    intro f2 bs h1 _
    have : bs = [] := List.eq_nil_of_length_eq_zero (Nat.le_zero.mp h1)
    subst this
    cases f2 <;> rfl
  | succ g ih =>
    intro f2 bs h1 h2
    cases bs with
    | nil => cases f2 <;> rfl
    | cons b rest =>
      cases f2 with
      | zero => simp at h2
      | succ g2 =>
        rw [utf8DecodeFuel, utf8DecodeFuel]
        cases hstep : utf8DecodeStep b rest with
        | none => rfl
        | some p =>
          obtain ⟨c, rest2⟩ := p
          have hlen := utf8DecodeStep_length b rest c rest2 hstep
          simp only [List.length_cons] at h1 h2
          have heq := ih g2 rest2 (by omega) (by omega)
          simp [heq]

theorem utf8Decode_encodeChar (c : Nat) (h : isScalar c)
    (tail : List Nat) :
    utf8Decode (encodeChar c ++ tail) = (utf8Decode tail).map (c :: ·) := by
  obtain ⟨hmax, hsur⟩ := h
  rw [encodeChar]
  by_cases h1 : c < 0x80
  · rw [if_pos h1]
    simp only [List.cons_append, List.nil_append]
    have hstep : utf8DecodeStep c tail = some (c, tail) := by
      rw [utf8DecodeStep, if_pos h1]
    rw [utf8Decode, utf8Decode]
    simp only [List.length_cons]
    rw [utf8DecodeFuel, hstep]
  · rw [if_neg h1]
    by_cases h2 : c < 0x800
    · rw [if_pos h2]
      simp only [List.cons_append, List.nil_append]
      have hstep : utf8DecodeStep (0xC0 + c / 64)
          ((0x80 + c % 64) :: tail) = some (c, tail) := by
        rw [utf8DecodeStep,
          if_neg (show ¬(0xC0 + c / 64 < 0x80) by omega),
          if_neg (show ¬(0xC0 + c / 64 < 0xC2) by omega),
          if_pos (show 0xC0 + c / 64 < 0xE0 by omega),
          cont2,
          if_pos (show 0x80 ≤ 0x80 + c % 64 ∧ 0x80 + c % 64 < 0xC0
            by omega)]
        rw [show (0xC0 + c / 64 - 0xC0) * 64 + (0x80 + c % 64 - 0x80) = c
          by omega]
      rw [utf8Decode, utf8Decode]
      simp only [List.length_cons]
      rw [utf8DecodeFuel, hstep]
      simp only [Option.map]
      rw [utf8DecodeFuel_congr (tail.length + 1) tail.length tail
        (by omega) (Nat.le_refl _)]
    · rw [if_neg h2]
      by_cases h3 : c < 0x10000
      · rw [if_pos h3]
        simp only [List.cons_append, List.nil_append]
        have hstep : utf8DecodeStep (0xE0 + c / 4096)
            ((0x80 + c / 64 % 64) :: (0x80 + c % 64) :: tail) =
            some (c, tail) := by
          rw [utf8DecodeStep,
            if_neg (show ¬(0xE0 + c / 4096 < 0x80) by omega),
            if_neg (show ¬(0xE0 + c / 4096 < 0xC2) by omega),
            if_neg (show ¬(0xE0 + c / 4096 < 0xE0) by omega),
            if_pos (show 0xE0 + c / 4096 < 0xF0 by omega),
            cont3,
            if_pos (show
              (0x80 ≤ 0x80 + c / 64 % 64 ∧ 0x80 + c / 64 % 64 < 0xC0) ∧
              (0x80 ≤ 0x80 + c % 64 ∧ 0x80 + c % 64 < 0xC0) ∧
              ¬(0xE0 + c / 4096 = 0xE0 ∧ 0x80 + c / 64 % 64 < 0xA0) ∧
              ¬(0xE0 + c / 4096 = 0xED ∧ 0xA0 ≤ 0x80 + c / 64 % 64)
              by omega)]
          rw [show (0xE0 + c / 4096 - 0xE0) * 4096 +
            (0x80 + c / 64 % 64 - 0x80) * 64 + (0x80 + c % 64 - 0x80) = c
            by omega]
        rw [utf8Decode, utf8Decode]
        simp only [List.length_cons]
        rw [utf8DecodeFuel, hstep]
        simp only [Option.map]
        rw [utf8DecodeFuel_congr (tail.length + 2) tail.length
          tail (by omega) (Nat.le_refl _)]
      · rw [if_neg h3]
        simp only [List.cons_append, List.nil_append]
        have hstep : utf8DecodeStep (0xF0 + c / 262144)
            ((0x80 + c / 4096 % 64) :: (0x80 + c / 64 % 64) ::
             (0x80 + c % 64) :: tail) = some (c, tail) := by
          rw [utf8DecodeStep,
            if_neg (show ¬(0xF0 + c / 262144 < 0x80) by omega),
            if_neg (show ¬(0xF0 + c / 262144 < 0xC2) by omega),
            if_neg (show ¬(0xF0 + c / 262144 < 0xE0) by omega),
            if_neg (show ¬(0xF0 + c / 262144 < 0xF0) by omega),
            if_pos (show 0xF0 + c / 262144 < 0xF5 by omega),
            cont4,
            if_pos (show
              (0x80 ≤ 0x80 + c / 4096 % 64 ∧ 0x80 + c / 4096 % 64 < 0xC0) ∧
              (0x80 ≤ 0x80 + c / 64 % 64 ∧ 0x80 + c / 64 % 64 < 0xC0) ∧
              (0x80 ≤ 0x80 + c % 64 ∧ 0x80 + c % 64 < 0xC0) ∧
              ¬(0xF0 + c / 262144 = 0xF0 ∧ 0x80 + c / 4096 % 64 < 0x90) ∧
              ¬(0xF0 + c / 262144 = 0xF4 ∧ 0x90 ≤ 0x80 + c / 4096 % 64)
              by omega)]
          rw [show (0xF0 + c / 262144 - 0xF0) * 262144 +
            (0x80 + c / 4096 % 64 - 0x80) * 4096 +
            (0x80 + c / 64 % 64 - 0x80) * 64 + (0x80 + c % 64 - 0x80) = c
            by omega]
        rw [utf8Decode, utf8Decode]
        simp only [List.length_cons]
        rw [utf8DecodeFuel, hstep]
        simp only [Option.map]
        rw [utf8DecodeFuel_congr (tail.length + 3) tail.length
          tail (by omega) (Nat.le_refl _)]

theorem utf8Decode_pyEncodeUtf8 (cs bs : List Nat)
    (h : pyEncodeUtf8 cs = .ok bs) : utf8Decode bs = some cs := by
  induction cs generalizing bs with
  | nil =>
    rw [pyEncodeUtf8] at h
    cases h
    rfl
  | cons c cs ih =>
    rw [pyEncodeUtf8] at h
    by_cases hs : isScalar c
    · rw [if_pos hs] at h
      cases henc : pyEncodeUtf8 cs with
      | error e => rw [henc] at h; cases h
      | ok bs' =>
        rw [henc] at h
        cases h
        rw [utf8Decode_encodeChar c hs bs', ih bs' henc]
        rfl
    · rw [if_neg hs] at h
      cases h

theorem handle_upload_response_non200 (status : Nat)
    (body : Option Json) (h : status ≠ 200) :
    handle_upload_response (.resp status body) =
      .error (.httpException 500 "walrus upload failed") := by
  rw [handle_upload_response.eq_def]
  simp only []
  rw [if_pos h]

theorem handle_upload_response_no_variant (kvs : List (String × Json))
    (hnc : alookup kvs "newlyCreated" = none)
    (hac : alookup kvs "alreadyCertified" = none) :
    handle_upload_response (.resp 200 (some (.obj kvs))) =
      .error (.httpException 500 "walrus upload missing blobId") := by
  rw [handle_upload_response.eq_def]
  simp [pyContains, hnc, hac]

theorem handle_upload_response_newly (kvs : List (String × Json))
    (nc bo v : Json) (hnc : alookup kvs "newlyCreated" = some nc)
    (hbo : pyIndex nc "blobObject" = .ok bo)
    (hv : pyIndex bo "blobId" = .ok v) :
    handle_upload_response (.resp 200 (some (.obj kvs))) = .ok v := by
  have k1 : pyIndex (Json.obj kvs) "newlyCreated" = .ok nc := by
    rw [pyIndex, hnc]
  rw [handle_upload_response.eq_def]
  simp [pyContains, hnc, k1, hbo, hv]

theorem handle_upload_response_already (kvs : List (String × Json))
    (ac v : Json) (hnc : alookup kvs "newlyCreated" = none)
    (hac : alookup kvs "alreadyCertified" = some ac)
    (hv : pyIndex ac "blobId" = .ok v) :
    handle_upload_response (.resp 200 (some (.obj kvs))) = .ok v := by
  have k2 : pyIndex (Json.obj kvs) "alreadyCertified" = .ok ac := by
    rw [pyIndex, hac]
  rw [handle_upload_response.eq_def]
  simp [pyContains, hnc, hac, k2, hv]

theorem submit_of_upload_ok (net : List Nat → UploadOutcome)
    (formId : String) (encrypted : List Nat) (st : St) (l : List Json)
    (b : Json) (hf : (alookup st.forms formId).isSome)
    (hs : alookup st.submissions formId = some l)
    (hup : walrus_upload encrypted net = .ok b) :
    submit net formId encrypted st =
      (⟨st.forms,
        aupdate st.submissions formId (l ++ [Json.obj [("blobId", b)]])⟩,
       .ok (Json.obj [("status", Json.str "stored"), ("blobId", b)])) := by
  obtain ⟨fd, hfd⟩ := Option.isSome_iff_exists.mp hf
  rw [submit, hfd]
  simp only [Option.isNone_some, Bool.false_eq_true, if_false]
  rw [hup, hs]

theorem submit_of_upload_err (net : List Nat → UploadOutcome)
    (formId : String) (encrypted : List Nat) (st : St) (e : Err)
    (hf : (alookup st.forms formId).isSome)
    (hup : walrus_upload encrypted net = .error e) :
    submit net formId encrypted st = (st, .error e) := by
  obtain ⟨fd, hfd⟩ := Option.isSome_iff_exists.mp hf
  rw [submit, hfd]
  simp only [Option.isNone_some, Bool.false_eq_true, if_false]
  rw [hup]

theorem walrus_upload_ideal (P bs : List Nat) (fresh : String)
    (h : pyEncodeUtf8 P = .ok bs) :
    walrus_upload P (idealUploadNet fresh) = .ok (Json.str fresh) := by
  rw [walrus_upload, h]
  show handle_upload_response (.resp 200 _) = _
  apply handle_upload_response_newly _
    (Json.obj [("blobObject", Json.obj [("blobId", Json.str fresh)])])
    (Json.obj [("blobId", Json.str fresh)])
  · simp [alookup]
  · simp [pyIndex, alookup]
  · simp [pyIndex, alookup]

/-- C6: submitting to a form id absent from `forms` fails with the 404
`HTTPException` ("form not found") and leaves the state unchanged; the
network oracle `net` is universally quantified and the result does not
depend on it, so the remote store is never contacted. -/
theorem submit_unknown_form_404 (net : List Nat → UploadOutcome)
    (formId : String) (encrypted : List Nat) (st : St)
    (h : alookup st.forms formId = none) :
    submit net formId encrypted st =
      (st, .error (.httpException 404 "form not found")) := by
  rw [submit, h]
  rfl

/-- Witness for C6 at a concrete state: the empty registry does not
contain `"f"`. -/
theorem submit_unknown_form_404_witness :
    submit (fun _ => .netErr) "f" [] ⟨[], []⟩ =
      (⟨[], []⟩, .error (.httpException 404 "form not found")) :=
  submit_unknown_form_404 (fun _ => .netErr) "f" [] ⟨[], []⟩ rfl

/-- C7: `create_form` returns `adminLink = "/admin/" ++ formId` and
`submitLink = "/f/" ++ formId` for the returned `formId`, and
`get_form` on that id then returns exactly the stored
publicKey/schema record. -/
theorem create_form_links_and_get_form (form_id publicKey : String)
    (schema : Json) (st : St) :
    (create_form form_id publicKey schema st).2.formId = form_id ∧
    (create_form form_id publicKey schema st).2.adminLink =
      "/admin/" ++ (create_form form_id publicKey schema st).2.formId ∧
    (create_form form_id publicKey schema st).2.submitLink =
      "/f/" ++ (create_form form_id publicKey schema st).2.formId ∧
    get_form form_id (create_form form_id publicKey schema st).1 =
      .ok ⟨publicKey, schema⟩ := by
  refine ⟨rfl, rfl, rfl, ?_⟩
  rw [get_form]
  rw [show (create_form form_id publicKey schema st).1.forms =
    aupdate st.forms form_id ⟨publicKey, schema⟩ from rfl]
  rw [alookup_aupdate_self]

/-- C8: a freshly created form has an empty ledger: `list_submissions`
on it succeeds with `[]` (nothing is fetched), while `list_submissions`
on a form id absent from `submissions` fails with the 404
`HTTPException`. -/
theorem list_submissions_fresh_form_empty (form_id publicKey : String)
    (schema : Json) (st : St) (net : Json → FetchOutcome) :
    list_submissions net form_id
      (create_form form_id publicKey schema st).1 = .ok [] ∧
    (∀ (fid : String) (st' : St), alookup st'.submissions fid = none →
      list_submissions net fid st' =
        .error (.httpException 404 "form not found")) := by
  constructor
  · rw [list_submissions]
    rw [show (create_form form_id publicKey schema st).1.submissions =
      aupdate st.submissions form_id [] from rfl]
    rw [alookup_aupdate_self]
    rfl
  · intro fid st' h
    rw [list_submissions, h]

/-- Witness for C8 at concrete inputs: a fresh form lists `[]`; an
unknown id on the empty state is a 404. -/
theorem list_submissions_fresh_form_empty_witness :
    list_submissions (fun _ => .netErr) "f1"
      (create_form "f1" "pk" Json.null ⟨[], []⟩).1 = .ok [] ∧
    list_submissions (fun _ => .netErr) "g" ⟨[], []⟩ =
      .error (.httpException 404 "form not found") :=
  ⟨(list_submissions_fresh_form_empty "f1" "pk" Json.null ⟨[], []⟩
      (fun _ => .netErr)).1,
   (list_submissions_fresh_form_empty "f1" "pk" Json.null ⟨[], []⟩
      (fun _ => .netErr)).2 "g" ⟨[], []⟩ rfl⟩

/-- C1 is false as stated on non-object JSON bodies: a 200 response
whose body parses as the JSON array `["alreadyCertified"]` contains
neither variant key, so the claim demands the `StoreProtocolError`
raise (`HTTPException 500 "walrus upload missing blobId"`), but the
code's `"alreadyCertified" in j` then `j["alreadyCertified"]` raises an
uncaught `TypeError` on the list. Likewise, an object whose
`newlyCreated` value is `null` makes the nested indexing raise
`TypeError` instead of returning a blob id. -/
theorem upload_nonobject_counterexample :
    handle_upload_response
      (.resp 200 (some (Json.arr [Json.str "alreadyCertified"]))) =
      .error (.uncaught "TypeError") ∧
    handle_upload_response
      (.resp 200 (some (Json.arr [Json.str "alreadyCertified"]))) ≠
      .error (.httpException 500 "walrus upload missing blobId") ∧
    handle_upload_response
      (.resp 200 (some (Json.obj [("newlyCreated", Json.null)]))) =
      .error (.uncaught "TypeError") := by
  refine ⟨rfl, ?_, rfl⟩
  intro h
  exact Err.noConfusion (Except.error.inj h)

/-- C1 (amended): for an upload response with status 200 whose body
parses as a JSON *object*: if it has a `newlyCreated` key and the path
`newlyCreated.blobObject.blobId` exists, its value is returned;
otherwise if it has an `alreadyCertified` key and
`alreadyCertified.blobId` exists, that value is returned; and if it has
neither key the `StoreProtocolError` raise (`HTTPException 500
"walrus upload missing blobId"`) fires. -/
theorem handle_upload_response_object_cases
    (kvs : List (String × Json)) :
    (∀ nc bo v, alookup kvs "newlyCreated" = some nc →
        pyIndex nc "blobObject" = .ok bo →
        pyIndex bo "blobId" = .ok v →
        handle_upload_response (.resp 200 (some (.obj kvs))) = .ok v) ∧
    (∀ ac v, alookup kvs "newlyCreated" = none →
        alookup kvs "alreadyCertified" = some ac →
        pyIndex ac "blobId" = .ok v →
        handle_upload_response (.resp 200 (some (.obj kvs))) = .ok v) ∧
    (alookup kvs "newlyCreated" = none →
        alookup kvs "alreadyCertified" = none →
        handle_upload_response (.resp 200 (some (.obj kvs))) =
          .error (.httpException 500 "walrus upload missing blobId")) := by
  refine ⟨?_, ?_, ?_⟩
  · intro nc bo v h1 h2 h3
    exact handle_upload_response_newly kvs nc bo v h1 h2 h3
  · intro ac v h1 h2 h3
    exact handle_upload_response_already kvs ac v h1 h2 h3
  · intro h1 h2
    exact handle_upload_response_no_variant kvs h1 h2

/-- Witness for the amended C1, one concrete body per branch. -/
theorem handle_upload_response_object_cases_witness :
    handle_upload_response (.resp 200 (some (Json.obj
      [("newlyCreated", Json.obj
        [("blobObject", Json.obj [("blobId", Json.str "B1")])])]))) =
      .ok (Json.str "B1") ∧
    handle_upload_response (.resp 200 (some (Json.obj
      [("alreadyCertified", Json.obj [("blobId", Json.str "B2")])]))) =
      .ok (Json.str "B2") ∧
    handle_upload_response (.resp 200 (some (Json.obj
      [("other", Json.null)]))) =
      .error (.httpException 500 "walrus upload missing blobId") :=
  ⟨(handle_upload_response_object_cases _).1
    (Json.obj [("blobObject", Json.obj [("blobId", Json.str "B1")])])
    (Json.obj [("blobId", Json.str "B1")]) (Json.str "B1") rfl rfl rfl,
   (handle_upload_response_object_cases _).2.1
    (Json.obj [("blobId", Json.str "B2")]) (Json.str "B2") rfl rfl rfl,
   (handle_upload_response_object_cases _).2.2 rfl rfl⟩

/-- C2: on an existing form in a well-formed state (the id is in both
`forms` and `submissions`, as every reachable state guarantees), the
ledger gains exactly the one appended entry when and only when the
upload reports success: on `walrus_upload` success the ledger entry
`{"blobId": b}` is appended and submit returns stored; on any upload
error the state — and hence the form's ledger — is returned unchanged;
in particular a non-200 upload status and a 200 JSON object body with
neither variant key both fail with the corresponding store error and
leave the ledger untouched. -/
theorem submit_ledger_iff_upload (net : List Nat → UploadOutcome)
    (formId : String) (encrypted : List Nat) (st : St) (l : List Json)
    (hf : (alookup st.forms formId).isSome)
    (hs : alookup st.submissions formId = some l) :
    (∀ b, walrus_upload encrypted net = .ok b →
      submit net formId encrypted st =
        (⟨st.forms, aupdate st.submissions formId
            (l ++ [Json.obj [("blobId", b)]])⟩,
         .ok (Json.obj [("status", Json.str "stored"),
                        ("blobId", b)]))) ∧
    (∀ e, walrus_upload encrypted net = .error e →
      submit net formId encrypted st = (st, .error e)) ∧
    (∀ bs status body, pyEncodeUtf8 encrypted = .ok bs →
      net bs = .resp status body → status ≠ 200 →
      submit net formId encrypted st =
        (st, .error (.httpException 500 "walrus upload failed"))) ∧
    (∀ bs kvs, pyEncodeUtf8 encrypted = .ok bs →
      net bs = .resp 200 (some (.obj kvs)) →
      alookup kvs "newlyCreated" = none →
      alookup kvs "alreadyCertified" = none →
      submit net formId encrypted st =
        (st, .error (.httpException 500
          "walrus upload missing blobId"))) := by
  refine ⟨?_, ?_, ?_, ?_⟩
  · intro b hup
    exact submit_of_upload_ok net formId encrypted st l b hf hs hup
  · intro e hup
    exact submit_of_upload_err net formId encrypted st e hf hup
  · intro bs status body hbs hnet hstatus
    refine submit_of_upload_err net formId encrypted st _ hf ?_
    rw [walrus_upload, hbs]
    show handle_upload_response (net bs) = _
    rw [hnet]
    exact handle_upload_response_non200 status body hstatus
  · intro bs kvs hbs hnet hnc hac
    refine submit_of_upload_err net formId encrypted st _ hf ?_
    rw [walrus_upload, hbs]
    show handle_upload_response (net bs) = _
    rw [hnet]
    exact handle_upload_response_no_variant kvs hnc hac

/-- Witness for C2 on a freshly created form, one network oracle per
branch: a `newlyCreated` success, a transport failure, a 500 status,
and a 200 object body with neither key. -/
theorem submit_ledger_iff_upload_witness :
    submit (fun _ => .resp 200 (some (Json.obj
        [("newlyCreated", Json.obj
          [("blobObject", Json.obj [("blobId", Json.str "B1")])])])))
      "f1" [72] (create_form "f1" "pk" Json.null ⟨[], []⟩).1 =
      (⟨(create_form "f1" "pk" Json.null ⟨[], []⟩).1.forms,
        aupdate (create_form "f1" "pk" Json.null ⟨[], []⟩).1.submissions
          "f1" ([] ++ [Json.obj [("blobId", Json.str "B1")]])⟩,
       .ok (Json.obj [("status", Json.str "stored"),
                      ("blobId", Json.str "B1")])) ∧
    submit (fun _ => .netErr) "f1" [72]
      (create_form "f1" "pk" Json.null ⟨[], []⟩).1 =
      ((create_form "f1" "pk" Json.null ⟨[], []⟩).1,
       .error (.httpException 500 "walrus upload network error")) ∧
    submit (fun _ => .resp 500 none) "f1" [72]
      (create_form "f1" "pk" Json.null ⟨[], []⟩).1 =
      ((create_form "f1" "pk" Json.null ⟨[], []⟩).1,
       .error (.httpException 500 "walrus upload failed")) ∧
    submit (fun _ => .resp 200 (some (Json.obj [("other", Json.null)])))
      "f1" [72] (create_form "f1" "pk" Json.null ⟨[], []⟩).1 =
      ((create_form "f1" "pk" Json.null ⟨[], []⟩).1,
       .error (.httpException 500 "walrus upload missing blobId")) :=
  ⟨(submit_ledger_iff_upload _ "f1" [72]
      (create_form "f1" "pk" Json.null ⟨[], []⟩).1 [] rfl rfl).1
     (Json.str "B1") rfl,
   (submit_ledger_iff_upload _ "f1" [72]
      (create_form "f1" "pk" Json.null ⟨[], []⟩).1 [] rfl rfl).2.1
     (.httpException 500 "walrus upload network error") rfl,
   (submit_ledger_iff_upload _ "f1" [72]
      (create_form "f1" "pk" Json.null ⟨[], []⟩).1 [] rfl rfl).2.2.1
     [72] 500 none rfl rfl (by decide),
   (submit_ledger_iff_upload _ "f1" [72]
      (create_form "f1" "pk" Json.null ⟨[], []⟩).1 [] rfl rfl).2.2.2
     [72] [("other", Json.null)] rfl rfl rfl rfl⟩

/-- C4: a 200 body carrying only the `alreadyCertified` variant is
treated exactly like the created variant: the upload succeeds with the
extracted `blobId`, and a submit against such a store appends the
ledger entry with that identifier and reports stored. -/
theorem submit_already_certified (v : Json) (formId : String)
    (encrypted bs : List Nat) (st : St) (l : List Json)
    (kvs : List (String × Json))
    (hf : (alookup st.forms formId).isSome)
    (hs : alookup st.submissions formId = some l)
    (henc : pyEncodeUtf8 encrypted = .ok bs)
    (hnc : alookup kvs "newlyCreated" = none)
    (hac : alookup kvs "alreadyCertified" =
      some (Json.obj [("blobId", v)])) :
    walrus_upload encrypted
      (fun _ => .resp 200 (some (.obj kvs))) = .ok v ∧
    submit (fun _ => .resp 200 (some (.obj kvs))) formId encrypted st =
      (⟨st.forms, aupdate st.submissions formId
          (l ++ [Json.obj [("blobId", v)]])⟩,
       .ok (Json.obj [("status", Json.str "stored"),
                      ("blobId", v)])) := by
  have hup : walrus_upload encrypted
      (fun _ => .resp 200 (some (.obj kvs))) = .ok v := by
    rw [walrus_upload, henc]
    show handle_upload_response (.resp 200 (some (.obj kvs))) = _
    refine handle_upload_response_already kvs
      (Json.obj [("blobId", v)]) v hnc hac ?_
    rw [pyIndex]
    simp [alookup]
  exact ⟨hup, submit_of_upload_ok _ formId encrypted st l v hf hs hup⟩

/-- Witness for C4 on a freshly created form with a concrete
`alreadyCertified`-only body. -/
theorem submit_already_certified_witness :
    walrus_upload [72] (fun _ => .resp 200 (some (Json.obj
      [("alreadyCertified", Json.obj [("blobId", Json.str "B2")])]))) =
      .ok (Json.str "B2") ∧
    submit (fun _ => .resp 200 (some (Json.obj
        [("alreadyCertified", Json.obj [("blobId", Json.str "B2")])])))
      "f1" [72] (create_form "f1" "pk" Json.null ⟨[], []⟩).1 =
      (⟨(create_form "f1" "pk" Json.null ⟨[], []⟩).1.forms,
        aupdate (create_form "f1" "pk" Json.null ⟨[], []⟩).1.submissions
          "f1" ([] ++ [Json.obj [("blobId", Json.str "B2")]])⟩,
       .ok (Json.obj [("status", Json.str "stored"),
                      ("blobId", Json.str "B2")])) :=
  submit_already_certified (Json.str "B2") "f1" [72] [72]
    (create_form "f1" "pk" Json.null ⟨[], []⟩).1 []
    [("alreadyCertified", Json.obj [("blobId", Json.str "B2")])]
    rfl rfl rfl rfl rfl

/-- C3: on a 200 fetch response the body bytes are UTF-8-decoded and
returned; but when they are not valid UTF-8 the
`resp.content.decode("utf-8")` call has no handler in the source, so
the failure is the uncaught `UnicodeDecodeError` — not an
`HTTPException` of any status or detail, hence not the
`StoreProtocolError` 500 the spec prescribes. Evaluated at the failing
body `[0xFF]`. -/
theorem walrus_fetch_decode_failure_uncaught :
    walrus_fetch (Json.str "B") (fun _ => .resp 200 [72, 105]) =
      .ok [72, 105] ∧
    walrus_fetch (Json.str "B") (fun _ => .resp 200 [0xFF]) =
      .error (.uncaught "UnicodeDecodeError") ∧
    (∀ status detail, walrus_fetch (Json.str "B")
        (fun _ => .resp 200 [0xFF]) ≠
      .error (.httpException status detail)) := by
  refine ⟨rfl, rfl, ?_⟩
  intro status detail h
  exact Err.noConfusion (Except.error.inj h)

/-- The registry/ledger key-set invariant of C9. -/
def keysAligned (st : St) : Prop :=
  akeys st.forms = akeys st.submissions

/-- Case split on the state a `submit` call returns: unchanged, or the
single ledger append on an existing key. -/
theorem submit_state_cases (net : List Nat → UploadOutcome)
    (formId : String) (encrypted : List Nat) (st : St) :
    (submit net formId encrypted st).1 = st ∨
    ∃ l b, alookup st.submissions formId = some l ∧
      (submit net formId encrypted st).1 =
        ⟨st.forms, aupdate st.submissions formId
          (l ++ [Json.obj [("blobId", b)]])⟩ := by
  rw [submit]
  by_cases hn : (alookup st.forms formId).isNone = true
  · rw [if_pos hn]
    exact Or.inl rfl
  · rw [if_neg hn]
    cases hup : walrus_upload encrypted net with
    | error e => exact Or.inl rfl
    | ok b =>
      cases hsub : alookup st.submissions formId with
      | none => exact Or.inl rfl
      | some l => exact Or.inr ⟨l, b, rfl, rfl⟩

/-- C9: the key sets of `forms` and `submissions` coincide on the
initial state and are preserved by the two state-changing operations
(`create_form` assigns the same fresh key in both dictionaries,
`submit` at most rewrites an existing ledger key; `list_submissions`
and `get_form` read the state only), and under the invariant the
`forms` existence check of submit/get_form and the `submissions` check
of list_submissions agree on every form id. -/
theorem registry_ledger_keys_aligned :
    keysAligned ⟨[], []⟩ ∧
    (∀ form_id publicKey schema st, keysAligned st →
      keysAligned (create_form form_id publicKey schema st).1) ∧
    (∀ net formId encrypted st, keysAligned st →
      keysAligned (submit net formId encrypted st).1) ∧
    (∀ st formId, keysAligned st →
      ((alookup st.forms formId).isSome ↔
        (alookup st.submissions formId).isSome)) := by
  have hmem : ∀ (st : St) (fid : String), keysAligned st →
      ((alookup st.forms fid).isSome ↔
        (alookup st.submissions fid).isSome) := by
    intro st fid h
    rw [alookup_isSome_iff_mem_akeys, alookup_isSome_iff_mem_akeys, h]
  refine ⟨rfl, ?_, ?_, hmem⟩
  · intro form_id publicKey schema st h
    show akeys (aupdate st.forms form_id ⟨publicKey, schema⟩) =
      akeys (aupdate st.submissions form_id [])
    rw [akeys_aupdate, akeys_aupdate]
    by_cases hq : (alookup st.forms form_id).isSome
    · rw [if_pos hq, if_pos ((hmem st form_id h).mp hq)]
      exact h
    · rw [if_neg hq, if_neg (fun hh => hq ((hmem st form_id h).mpr hh))]
      rw [keysAligned] at h
      rw [h]
  · intro net formId encrypted st h
    rcases submit_state_cases net formId encrypted st with hc | ⟨l, b, hl, hc⟩
    · rw [hc]
      exact h
    · rw [hc]
      show akeys st.forms = akeys (aupdate st.submissions formId _)
      rw [akeys_aupdate, if_pos (by rw [hl]; rfl)]
      exact h

/-- Witness for C9: the invariant transported along a concrete create
followed by a concrete submit, and the agreement of the two existence
checks there. -/
theorem registry_ledger_keys_aligned_witness :
    keysAligned (submit
      (fun _ => .resp 200 (some (Json.obj
        [("newlyCreated", Json.obj
          [("blobObject", Json.obj [("blobId", Json.str "B1")])])])))
      "f1" [72] (create_form "f1" "pk" Json.null ⟨[], []⟩).1).1 ∧
    ((alookup (create_form "f1" "pk" Json.null ⟨[], []⟩).1.forms
        "f2").isSome ↔
      (alookup (create_form "f1" "pk" Json.null
        ⟨[], []⟩).1.submissions "f2").isSome) :=
  ⟨registry_ledger_keys_aligned.2.2.1 _ "f1" [72] _
    (registry_ledger_keys_aligned.2.1 "f1" "pk" Json.null ⟨[], []⟩
      registry_ledger_keys_aligned.1),
   registry_ledger_keys_aligned.2.2.2 _ "f2"
    (registry_ledger_keys_aligned.2.1 "f1" "pk" Json.null ⟨[], []⟩
      registry_ledger_keys_aligned.1)⟩

/-- C10: a successful submit changes nothing but the submitting form's
ledger: the registry is untouched, every other form's ledger is
untouched, and that form's ledger is exactly its previous sequence
with the one `{"blobId": b}` record appended at the end. -/
theorem submit_frame (net : List Nat → UploadOutcome)
    (formId : String) (encrypted : List Nat) (st st' : St) (r : Json)
    (h : submit net formId encrypted st = (st', .ok r)) :
    st'.forms = st.forms ∧
    (∀ g, g ≠ formId →
      alookup st'.submissions g = alookup st.submissions g) ∧
    (∃ b prev, alookup st.submissions formId = some prev ∧
      alookup st'.submissions formId =
        some (prev ++ [Json.obj [("blobId", b)]])) := by
  rw [submit] at h
  by_cases hn : (alookup st.forms formId).isNone = true
  · rw [if_pos hn] at h
    exact absurd (congrArg Prod.snd h) (by simp)
  · rw [if_neg hn] at h
    cases hup : walrus_upload encrypted net with
    | error e =>
      rw [hup] at h
      exact absurd (congrArg Prod.snd h) (by simp)
    | ok b =>
      rw [hup] at h
      cases hsub : alookup st.submissions formId with
      | none =>
        rw [hsub] at h
        exact absurd (congrArg Prod.snd h) (by simp)
      | some prev =>
        rw [hsub] at h
        have h1 := congrArg Prod.fst h
        simp only [] at h1
        refine ⟨by rw [← h1], ?_, ?_⟩
        · intro g hg
          rw [← h1]
          exact alookup_aupdate_ne _ _ _ _ hg
        · exact ⟨b, prev, rfl, by
            rw [← h1]
            exact alookup_aupdate_self _ _ _⟩

/-- A concrete reachable state for the C10 witness: one fresh form. -/
def demoState : St := (create_form "f1" "pk" Json.null ⟨[], []⟩).1

/-- A store answering every upload with a `newlyCreated` body for blob
id `B1`, for the C10 witness. -/
def demoNet : List Nat → UploadOutcome :=
  fun _ => .resp 200 (some (Json.obj
    [("newlyCreated", Json.obj
      [("blobObject", Json.obj [("blobId", Json.str "B1")])])]))

/-- The state after the C10 witness submit. -/
def demoState2 : St :=
  ⟨demoState.forms,
   aupdate demoState.submissions "f1"
     ([] ++ [Json.obj [("blobId", Json.str "B1")]])⟩

/-- Witness for C10: the frame conditions at a concrete successful
submit. -/
theorem submit_frame_witness :
    demoState2.forms = demoState.forms ∧
    (∀ g, g ≠ "f1" →
      alookup demoState2.submissions g =
        alookup demoState.submissions g) ∧
    (∃ b prev, alookup demoState.submissions "f1" = some prev ∧
      alookup demoState2.submissions "f1" =
        some (prev ++ [Json.obj [("blobId", b)]])) :=
  submit_frame demoNet "f1" [72] demoState demoState2
    (Json.obj [("status", Json.str "stored"),
               ("blobId", Json.str "B1")]) rfl

/-- C5: with the store modelled as content storage — each upload is
answered `newlyCreated` with a fresh blob id and recorded in an ideal
store, and each fetch returns, with status 200, exactly the bytes
recorded for that id — a single successful submit of `P1` to a fresh
form lists exactly one entry whose `encrypted` field is byte-for-byte
`P1`, and submitting `P1` then `P2` lists `[P1, P2]` in submission
order; the two submits themselves report stored with their blob ids. -/
theorem submit_list_round_trip (fid publicKey : String) (schema : Json)
    (st0 : St) (P1 P2 b1s b2s : List Nat) (β1 β2 : String)
    (hb : β1 ≠ β2)
    (h1 : pyEncodeUtf8 P1 = .ok b1s)
    (h2 : pyEncodeUtf8 P2 = .ok b2s) :
    (submit (idealUploadNet β1) fid P1
        (create_form fid publicKey schema st0).1).2 =
      .ok (Json.obj [("status", Json.str "stored"),
                     ("blobId", Json.str β1)]) ∧
    list_submissions (idealFetchNet [(β1, b1s)]) fid
      (submit (idealUploadNet β1) fid P1
        (create_form fid publicKey schema st0).1).1 =
      .ok [⟨Json.str β1, P1⟩] ∧
    (submit (idealUploadNet β2) fid P2
        (submit (idealUploadNet β1) fid P1
          (create_form fid publicKey schema st0).1).1).2 =
      .ok (Json.obj [("status", Json.str "stored"),
                     ("blobId", Json.str β2)]) ∧
    list_submissions (idealFetchNet [(β1, b1s), (β2, b2s)]) fid
      (submit (idealUploadNet β2) fid P2
        (submit (idealUploadNet β1) fid P1
          (create_form fid publicKey schema st0).1).1).1 =
      .ok [⟨Json.str β1, P1⟩, ⟨Json.str β2, P2⟩] := by
  have hf1 : (alookup (create_form fid publicKey schema st0).1.forms
      fid).isSome := by
    rw [show (create_form fid publicKey schema st0).1.forms =
      aupdate st0.forms fid ⟨publicKey, schema⟩ from rfl]
    rw [alookup_aupdate_self]
    rfl
  have hs1 : alookup (create_form fid publicKey schema st0).1.submissions
      fid = some [] := by
    rw [show (create_form fid publicKey schema st0).1.submissions =
      aupdate st0.submissions fid [] from rfl]
    rw [alookup_aupdate_self]
  have hup1 : walrus_upload P1 (idealUploadNet β1) =
      .ok (Json.str β1) := walrus_upload_ideal P1 b1s β1 h1
  have hsub1 := submit_of_upload_ok (idealUploadNet β1) fid P1
    (create_form fid publicKey schema st0).1 [] (Json.str β1)
    hf1 hs1 hup1
  have hf2 : (alookup (submit (idealUploadNet β1) fid P1
      (create_form fid publicKey schema st0).1).1.forms fid).isSome := by
    rw [hsub1]
    exact hf1
  have hs2 : alookup (submit (idealUploadNet β1) fid P1
      (create_form fid publicKey schema st0).1).1.submissions fid =
      some [Json.obj [("blobId", Json.str β1)]] := by
    rw [hsub1]
    show alookup (aupdate
      (create_form fid publicKey schema st0).1.submissions fid
      ([] ++ [Json.obj [("blobId", Json.str β1)]])) fid = _
    rw [alookup_aupdate_self]
    rfl
  have hup2 : walrus_upload P2 (idealUploadNet β2) =
      .ok (Json.str β2) := walrus_upload_ideal P2 b2s β2 h2
  have hsub2 := submit_of_upload_ok (idealUploadNet β2) fid P2
    (submit (idealUploadNet β1) fid P1
      (create_form fid publicKey schema st0).1).1
    [Json.obj [("blobId", Json.str β1)]] (Json.str β2) hf2 hs2 hup2
  have hs3 : alookup (submit (idealUploadNet β2) fid P2
      (submit (idealUploadNet β1) fid P1
        (create_form fid publicKey schema st0).1).1).1.submissions fid =
      some [Json.obj [("blobId", Json.str β1)],
            Json.obj [("blobId", Json.str β2)]] := by
    rw [hsub2]
    show alookup (aupdate _ fid
      ([Json.obj [("blobId", Json.str β1)]] ++
       [Json.obj [("blobId", Json.str β2)]])) fid = _
    rw [alookup_aupdate_self]
    rfl
  have k1 : pyIndex (Json.obj [("blobId", Json.str β1)]) "blobId" =
      .ok (Json.str β1) := by
    rw [pyIndex]
    simp [alookup]
  have k2 : pyIndex (Json.obj [("blobId", Json.str β2)]) "blobId" =
      .ok (Json.str β2) := by
    rw [pyIndex]
    simp [alookup]
  have hnet1 : idealFetchNet [(β1, b1s)] (Json.str β1) =
      .resp 200 b1s := by
    rw [idealFetchNet]
    simp [alookup]
  have hnet21 : idealFetchNet [(β1, b1s), (β2, b2s)] (Json.str β1) =
      .resp 200 b1s := by
    rw [idealFetchNet]
    simp [alookup]
  have hnet22 : idealFetchNet [(β1, b1s), (β2, b2s)] (Json.str β2) =
      .resp 200 b2s := by
    rw [idealFetchNet]
    simp [alookup, hb]
  have hdec1 : utf8Decode b1s = some P1 :=
    utf8Decode_pyEncodeUtf8 P1 b1s h1
  have hdec2 : utf8Decode b2s = some P2 :=
    utf8Decode_pyEncodeUtf8 P2 b2s h2
  have hfetch1 : walrus_fetch (Json.str β1)
      (idealFetchNet [(β1, b1s)]) = .ok P1 := by
    rw [walrus_fetch, hnet1]
    simp [hdec1]
  have hfetch21 : walrus_fetch (Json.str β1)
      (idealFetchNet [(β1, b1s), (β2, b2s)]) = .ok P1 := by
    rw [walrus_fetch, hnet21]
    simp [hdec1]
  have hfetch22 : walrus_fetch (Json.str β2)
      (idealFetchNet [(β1, b1s), (β2, b2s)]) = .ok P2 := by
    rw [walrus_fetch, hnet22]
    simp [hdec2]
  refine ⟨?_, ?_, ?_, ?_⟩
  · rw [hsub1]
  · rw [list_submissions, hs2]
    simp [fetch_entries, k1, hfetch1]
  · rw [hsub2]
  · rw [list_submissions, hs3]
    simp [fetch_entries, k1, k2, hfetch21, hfetch22]

/-- Witness for C5 at concrete payloads `[72]` then `[105]` and blob
ids `"A"`, `"B"`. -/
theorem submit_list_round_trip_witness :
    (submit (idealUploadNet "A") "f1" [72]
        (create_form "f1" "pk" Json.null ⟨[], []⟩).1).2 =
      .ok (Json.obj [("status", Json.str "stored"),
                     ("blobId", Json.str "A")]) ∧
    list_submissions (idealFetchNet [("A", [72])]) "f1"
      (submit (idealUploadNet "A") "f1" [72]
        (create_form "f1" "pk" Json.null ⟨[], []⟩).1).1 =
      .ok [⟨Json.str "A", [72]⟩] ∧
    (submit (idealUploadNet "B") "f1" [105]
        (submit (idealUploadNet "A") "f1" [72]
          (create_form "f1" "pk" Json.null ⟨[], []⟩).1).1).2 =
      .ok (Json.obj [("status", Json.str "stored"),
                     ("blobId", Json.str "B")]) ∧
    list_submissions (idealFetchNet [("A", [72]), ("B", [105])]) "f1"
      (submit (idealUploadNet "B") "f1" [105]
        (submit (idealUploadNet "A") "f1" [72]
          (create_form "f1" "pk" Json.null ⟨[], []⟩).1).1).1 =
      .ok [⟨Json.str "A", [72]⟩, ⟨Json.str "B", [105]⟩] :=
  submit_list_round_trip "f1" "pk" Json.null ⟨[], []⟩ [72] [105]
    [72] [105] "A" "B" (by decide) rfl rfl
